import Mathlib

/-!
Verification of the response-schema validator and token-probability renderer
of `src/components/TokenProbabilityVisualizer.tsx`.

The zod schemas (`ChatCompletionSchema` and its sub-schemas) are embedded as
recursive parsers over a JSON value type; `safeParse` either returns the typed
value or an ordered list of issues, each carrying the offending field path and
the expected versus received shape, mirroring zod's aggregation order
(declaration order of the object shape, index order for arrays).  JSON numbers
are modelled as rationals, and the renderer's `Math.exp` percentage conversion
is modelled over the reals.
-/

/-- A parsed JSON value, as handed to `ChatCompletionSchema.safeParse`.
Numbers are modelled as rationals. -/
inductive Json where
  | null
  | bool (b : Bool)
  | num (q : ℚ)
  | str (s : String)
  | arr (elems : List Json)
  | obj (fields : List (String × Json))

/-- One step of a zod issue path: an object key or an array index. -/
inductive PathElem where
  | key (k : String)
  | idx (i : Nat)
deriving DecidableEq

/-- One validation violation: the path of the offending field together with
the expected and the actually received shape (zod's invalid_type issue). -/
structure Issue where
  path : List PathElem
  expected : String
  received : String
deriving DecidableEq

/-- The JavaScript-side type name zod reports as `received`; `none` models a
missing object field, i.e. the value `undefined`. -/
def jsTypeName : Option Json → String
  | none => "undefined"
  | some .null => "null"
  | some (.bool _) => "boolean"
  | some (.num _) => "number"
  | some (.str _) => "string"
  | some (.arr _) => "array"
  | some (.obj _) => "object"

/-- Field lookup in a JSON object (JS property access). -/
def lookupField : List (String × Json) → String → Option Json
  | [], _ => none
  | (k, v) :: rest, key => if k == key then some v else lookupField rest key

/-- Result of running a zod schema: the typed value or the issue list. -/
abbrev VResult (α : Type) := Except (List Issue) α

/-- The issues of a result, empty on success. -/
def errList {α : Type} : VResult α → List Issue
  | .ok _ => []
  | .error es => es

/-- Embedding of `z.string()`. -/
def parseString (path : List PathElem) (v : Option Json) : VResult String :=
  match v with
  | some (.str s) => .ok s
  | _ => .error [⟨path, "string", jsTypeName v⟩]

/-- Embedding of `z.number()`: any JSON number is accepted, with no
integrality or range check. -/
def parseNumber (path : List PathElem) (v : Option Json) : VResult ℚ :=
  match v with
  | some (.num q) => .ok q
  | _ => .error [⟨path, "number", jsTypeName v⟩]

/-- Embedding of `z.null()`: the value must be present and exactly null. -/
def parseNull (path : List PathElem) (v : Option Json) : VResult Unit :=
  match v with
  | some .null => .ok ()
  | _ => .error [⟨path, "null", jsTypeName v⟩]

/-- Element-wise validation of an array's contents, indices recorded in the
path, issues aggregated in index order. -/
def parseElems {α : Type} (p : List PathElem → Option Json → VResult α)
    (path : List PathElem) (start : Nat) : List Json → VResult (List α)
  | [] => .ok []
  | x :: xs =>
    let hd := p (path ++ [.idx start]) (some x)
    let tl := parseElems p path (start + 1) xs
    match hd, tl with
    | .ok a, .ok rest => .ok (a :: rest)
    | _, _ => .error (errList hd ++ errList tl)

/-- Embedding of `z.array(s)`. -/
def parseArray {α : Type} (p : List PathElem → Option Json → VResult α)
    (path : List PathElem) (v : Option Json) : VResult (List α) :=
  match v with
  | some (.arr xs) => parseElems p path 0 xs
  | _ => .error [⟨path, "array", jsTypeName v⟩]

/-- Typed value of `TopLogProbSchema`: one alternative token. -/
structure TopLogProb where
  token : String
  logprob : ℚ
  bytes : Option (List ℚ)
deriving DecidableEq

/-- Typed value of `LogProbContentSchema`: one emitted token with its
alternatives. -/
structure LogProbContent where
  token : String
  logprob : ℚ
  bytes : List ℚ
  top_logprobs : List TopLogProb
deriving DecidableEq

/-- Typed value of `MessageSchema`. -/
structure Message where
  role : String
  content : String
deriving DecidableEq

/-- Typed value of the inline `logprobs` object of `ChoiceSchema`. -/
structure LogProbs where
  content : List LogProbContent
deriving DecidableEq

/-- Typed value of `ChoiceSchema`. -/
structure Choice where
  index : ℚ
  message : Message
  logprobs : LogProbs
  finish_reason : String
deriving DecidableEq

/-- Typed value of `UsageSchema`. -/
structure Usage where
  prompt_tokens : ℚ
  completion_tokens : ℚ
  total_tokens : ℚ
deriving DecidableEq

/-- Typed value of `ChatCompletionSchema`.  The schema's
`system_fingerprint` field is constrained to be exactly null, so it carries
no information and is not stored. -/
structure ChatCompletion where
  id : String
  object : String
  created : ℚ
  model : String
  choices : List Choice
  usage : Usage
deriving DecidableEq

/-- Embedding of `z.array(z.number()).nullable()`, the `bytes` field of
`TopLogProbSchema`. -/
def parseBytesNullable (path : List PathElem) (v : Option Json) :
    VResult (Option (List ℚ)) :=
  match v with
  | some .null => .ok none
  | _ =>
    match parseArray parseNumber path v with
    | .ok bs => .ok (some bs)
    | .error es => .error es

/-- Embedding of `TopLogProbSchema`. -/
def parseTopLogProb (path : List PathElem) (v : Option Json) : VResult TopLogProb :=
  match v with
  | some (.obj fs) =>
    match parseString (path ++ [.key "token"]) (lookupField fs "token"),
        parseNumber (path ++ [.key "logprob"]) (lookupField fs "logprob"),
        parseBytesNullable (path ++ [.key "bytes"]) (lookupField fs "bytes") with
    | .ok t, .ok lp, .ok b => .ok ⟨t, lp, b⟩
    | t, lp, b => .error (errList t ++ errList lp ++ errList b)
  | _ => .error [⟨path, "object", jsTypeName v⟩]

/-- Embedding of `LogProbContentSchema`. -/
def parseLogProbContent (path : List PathElem) (v : Option Json) :
    VResult LogProbContent :=
  match v with
  | some (.obj fs) =>
    match parseString (path ++ [.key "token"]) (lookupField fs "token"),
        parseNumber (path ++ [.key "logprob"]) (lookupField fs "logprob"),
        parseArray parseNumber (path ++ [.key "bytes"]) (lookupField fs "bytes"),
        parseArray parseTopLogProb (path ++ [.key "top_logprobs"])
          (lookupField fs "top_logprobs") with
    | .ok t, .ok lp, .ok b, .ok tops => .ok ⟨t, lp, b, tops⟩
    | t, lp, b, tops =>
      .error (errList t ++ errList lp ++ errList b ++ errList tops)
  | _ => .error [⟨path, "object", jsTypeName v⟩]

/-- Embedding of `MessageSchema`. -/
def parseMessage (path : List PathElem) (v : Option Json) : VResult Message :=
  match v with
  | some (.obj fs) =>
    match parseString (path ++ [.key "role"]) (lookupField fs "role"),
        parseString (path ++ [.key "content"]) (lookupField fs "content") with
    | .ok r, .ok c => .ok ⟨r, c⟩
    | r, c => .error (errList r ++ errList c)
  | _ => .error [⟨path, "object", jsTypeName v⟩]

/-- Embedding of the inline `z.object({ content: z.array(...) })` of
`ChoiceSchema`. -/
def parseLogProbs (path : List PathElem) (v : Option Json) : VResult LogProbs :=
  match v with
  | some (.obj fs) =>
    match parseArray parseLogProbContent (path ++ [.key "content"])
        (lookupField fs "content") with
    | .ok c => .ok ⟨c⟩
    | .error es => .error es
  | _ => .error [⟨path, "object", jsTypeName v⟩]

/-- Embedding of `ChoiceSchema`. -/
def parseChoice (path : List PathElem) (v : Option Json) : VResult Choice :=
  match v with
  | some (.obj fs) =>
    match parseNumber (path ++ [.key "index"]) (lookupField fs "index"),
        parseMessage (path ++ [.key "message"]) (lookupField fs "message"),
        parseLogProbs (path ++ [.key "logprobs"]) (lookupField fs "logprobs"),
        parseString (path ++ [.key "finish_reason"])
          (lookupField fs "finish_reason") with
    | .ok i, .ok m, .ok lps, .ok fr => .ok ⟨i, m, lps, fr⟩
    | i, m, lps, fr => .error (errList i ++ errList m ++ errList lps ++ errList fr)
  | _ => .error [⟨path, "object", jsTypeName v⟩]

/-- Embedding of `UsageSchema`. -/
def parseUsage (path : List PathElem) (v : Option Json) : VResult Usage :=
  match v with
  | some (.obj fs) =>
    match parseNumber (path ++ [.key "prompt_tokens"]) (lookupField fs "prompt_tokens"),
        parseNumber (path ++ [.key "completion_tokens"])
          (lookupField fs "completion_tokens"),
        parseNumber (path ++ [.key "total_tokens"]) (lookupField fs "total_tokens") with
    | .ok p, .ok c, .ok t => .ok ⟨p, c, t⟩
    | p, c, t => .error (errList p ++ errList c ++ errList t)
  | _ => .error [⟨path, "object", jsTypeName v⟩]

/-- Embedding of `ChatCompletionSchema`. -/
def parseChatCompletion (path : List PathElem) (v : Option Json) :
    VResult ChatCompletion :=
  match v with
  | some (.obj fs) =>
    match parseString (path ++ [.key "id"]) (lookupField fs "id"),
        parseString (path ++ [.key "object"]) (lookupField fs "object"),
        parseNumber (path ++ [.key "created"]) (lookupField fs "created"),
        parseString (path ++ [.key "model"]) (lookupField fs "model"),
        parseArray parseChoice (path ++ [.key "choices"]) (lookupField fs "choices"),
        parseUsage (path ++ [.key "usage"]) (lookupField fs "usage"),
        parseNull (path ++ [.key "system_fingerprint"])
          (lookupField fs "system_fingerprint") with
    | .ok i, .ok o, .ok cr, .ok m, .ok ch, .ok u, .ok _ => .ok ⟨i, o, cr, m, ch, u⟩
    | i, o, cr, m, ch, u, sf =>
      .error (errList i ++ errList o ++ errList cr ++ errList m ++ errList ch ++
        errList u ++ errList sf)
  | _ => .error [⟨path, "object", jsTypeName v⟩]

/-- Embedding of `ChatCompletionSchema.safeParse` applied to a parsed JSON
response body. -/
def validate (j : Json) : VResult ChatCompletion :=
  parseChatCompletion [] (some j)

/-- One alternative as rendered inside a token column: its text, its raw
log-probability, and whether it is highlighted as the chosen token
(`alternativeToken === token.token`). -/
structure AltDisplay where
  token : String
  logprob : ℚ
  isChosen : Bool
deriving DecidableEq

/-- One column of the visualizer: the emitted token's text as header, then
the alternatives in their original order. -/
structure TokenColumn where
  emittedToken : String
  alternatives : List AltDisplay
deriving DecidableEq

/-- How `renderTokenColumns` can fail.  `typeErrorUndefinedAccess` models the
JavaScript TypeError thrown when `completion.choices[0]` is `undefined` and
`.logprobs` is read from it.  `renderPrecondition` is modelled from the spec:
the RenderPrecondition fail-fast signal the spec requires for an empty
`choices`; the source has no code path producing it. -/
inductive RenderError where
  | typeErrorUndefinedAccess
  | renderPrecondition
deriving DecidableEq

/-- The rendering of one alternative of an emitted token. -/
def mkAltDisplay (emitted : String) (a : TopLogProb) : AltDisplay :=
  ⟨a.token, a.logprob, a.token == emitted⟩

/-- The rendering of one emitted token: header plus alternatives, in their
original order, none dropped. -/
def mkColumn (t : LogProbContent) : TokenColumn :=
  ⟨t.token, t.top_logprobs.map (mkAltDisplay t.token)⟩

/-- Embedding of `renderTokenColumns`: maps over
`completion.choices[0].logprobs.content`.  When `choices` is empty the code
reads `.logprobs` off `undefined` and throws. -/
def renderTokenColumns (c : ChatCompletion) : Except RenderError (List TokenColumn) :=
  match c.choices with
  | [] => .error .typeErrorUndefinedAccess
  | ch :: _ => .ok (ch.logprobs.content.map mkColumn)

/-- The percentage the visualizer computes for an alternative:
`Math.exp(logprob) * 100`, modelled over the reals. -/
noncomputable def probabilityPercent (a : AltDisplay) : ℝ :=
  Real.exp ((a.logprob : ℚ) : ℝ) * 100

/-- Rounding to three decimal places, the model of `toFixed(3)` on a
non-negative value (nearest thousandth, ties away from zero). -/
noncomputable def round3 (x : ℝ) : ℝ :=
  ((⌊x * 1000 + 1 / 2⌋ : ℤ) : ℝ) / 1000

/-- The value the visualizer displays for an alternative:
`(Math.exp(logprob) * 100).toFixed(3)`. -/
noncomputable def displayedPercent (a : AltDisplay) : ℝ :=
  round3 (probabilityPercent a)

/-- The completion state held by the component after a response body `data`
is processed: `setCompletion` runs only when `safeParse` succeeds, otherwise
the error is logged and the previous state `prev` is kept. -/
def fetchUpdate (prev : Option ChatCompletion) (data : Json) :
    Option ChatCompletion :=
  match validate data with
  | .ok c => some c
  | .error _ => prev

/-- Serialization of a `bytes` array back to JSON. -/
def serializeBytes (bs : List ℚ) : Json :=
  .arr (bs.map .num)

/-- Serialization of a `TopLogProb` back to JSON. -/
def serializeTopLogProb (t : TopLogProb) : Json :=
  .obj [("token", .str t.token), ("logprob", .num t.logprob),
    ("bytes", match t.bytes with | none => Json.null | some bs => serializeBytes bs)]

/-- Serialization of a `LogProbContent` back to JSON. -/
def serializeLogProbContent (t : LogProbContent) : Json :=
  .obj [("token", .str t.token), ("logprob", .num t.logprob),
    ("bytes", serializeBytes t.bytes),
    ("top_logprobs", .arr (t.top_logprobs.map serializeTopLogProb))]

/-- Serialization of a `Message` back to JSON. -/
def serializeMessage (m : Message) : Json :=
  .obj [("role", .str m.role), ("content", .str m.content)]

/-- Serialization of a `Choice` back to JSON. -/
def serializeChoice (c : Choice) : Json :=
  .obj [("index", .num c.index), ("message", serializeMessage c.message),
    ("logprobs", .obj [("content", .arr (c.logprobs.content.map serializeLogProbContent))]),
    ("finish_reason", .str c.finish_reason)]

/-- Serialization of a `Usage` back to JSON. -/
def serializeUsage (u : Usage) : Json :=
  .obj [("prompt_tokens", .num u.prompt_tokens),
    ("completion_tokens", .num u.completion_tokens),
    ("total_tokens", .num u.total_tokens)]

/-- Serialization of a `ChatCompletion` back to the JSON shape the schema
accepts, `system_fingerprint` rendered as null. -/
def serialize (c : ChatCompletion) : Json :=
  .obj [("id", .str c.id), ("object", .str c.object), ("created", .num c.created),
    ("model", .str c.model), ("choices", .arr (c.choices.map serializeChoice)),
    ("usage", serializeUsage c.usage), ("system_fingerprint", Json.null)]

/-- Element parsing undoes element serialization, for any start index. -/
theorem parseElems_map {α : Type} (p : List PathElem → Option Json → VResult α)
    (f : α → Json) (h : ∀ path x, p path (some (f x)) = .ok x) (xs : List α) :
    ∀ (path : List PathElem) (start : Nat),
      parseElems p path start (xs.map f) = .ok xs := by
  induction xs with
  | nil => intro path start; rfl
  | cons x rest ih =>
    intro path start
    simp only [List.map_cons, parseElems, h, ih]

/-- Array parsing undoes element-wise serialization. -/
theorem parseArray_map {α : Type} (p : List PathElem → Option Json → VResult α)
    (f : α → Json) (h : ∀ path x, p path (some (f x)) = .ok x)
    (path : List PathElem) (xs : List α) :
    parseArray p path (some (Json.arr (xs.map f))) = .ok xs := by
  simp only [parseArray, parseElems_map p f h]

/-- A serialized bytes array parses back. -/
theorem parseBytes_ser (path : List PathElem) (bs : List ℚ) :
    parseArray parseNumber path (some (serializeBytes bs)) = .ok bs := by
  simp only [serializeBytes, parseArray_map parseNumber Json.num (fun _ _ => rfl)]

/-- A serialized nullable bytes array parses back. -/
theorem parseBytesNullable_arr (path : List PathElem) (bs : List ℚ) :
    parseBytesNullable path (some (serializeBytes bs)) = .ok (some bs) := by
  simp only [parseBytesNullable, serializeBytes,
    parseArray_map parseNumber Json.num (fun _ _ => rfl)]

/-- A serialized alternative parses back. -/
theorem parseTopLogProb_ser (path : List PathElem) (t : TopLogProb) :
    parseTopLogProb path (some (serializeTopLogProb t)) = .ok t := by
  obtain ⟨tok, lp, b⟩ := t
  cases b with
  | none => rfl
  | some bs =>
    simp [parseTopLogProb, serializeTopLogProb, lookupField, parseString, parseNumber,
      parseBytesNullable_arr]

/-- A serialized emitted token parses back. -/
theorem parseLogProbContent_ser (path : List PathElem) (t : LogProbContent) :
    parseLogProbContent path (some (serializeLogProbContent t)) = .ok t := by
  obtain ⟨tok, lp, bs, tops⟩ := t
  simp [parseLogProbContent, serializeLogProbContent, lookupField, parseString,
    parseNumber, parseBytes_ser,
    parseArray_map parseTopLogProb serializeTopLogProb parseTopLogProb_ser]

/-- A serialized message parses back. -/
theorem parseMessage_ser (path : List PathElem) (m : Message) :
    parseMessage path (some (serializeMessage m)) = .ok m := rfl

/-- A serialized logprobs object parses back. -/
theorem parseLogProbs_ser (path : List PathElem) (l : LogProbs) :
    parseLogProbs path
      (some (Json.obj [("content", Json.arr (l.content.map serializeLogProbContent))])) =
      .ok l := by
  obtain ⟨c⟩ := l
  simp [parseLogProbs, lookupField,
    parseArray_map parseLogProbContent serializeLogProbContent parseLogProbContent_ser]

/-- A serialized choice parses back. -/
theorem parseChoice_ser (path : List PathElem) (c : Choice) :
    parseChoice path (some (serializeChoice c)) = .ok c := by
  obtain ⟨i, m, lps, fr⟩ := c
  simp [parseChoice, serializeChoice, lookupField, parseNumber, parseString,
    parseMessage_ser, parseLogProbs_ser]

/-- A serialized usage object parses back. -/
theorem parseUsage_ser (path : List PathElem) (u : Usage) :
    parseUsage path (some (serializeUsage u)) = .ok u := rfl

/-- C6.  Serialize/validate round-trip: every typed completion value, written
back to the JSON shape of the schema, validates successfully and yields a
structurally equal value. -/
theorem validate_serialize_roundtrip (c : ChatCompletion) :
    validate (serialize c) = .ok c := by
  obtain ⟨i, o, cr, m, ch, u⟩ := c
  simp [validate, parseChatCompletion, serialize, lookupField, parseString,
    parseNumber, parseNull, parseUsage_ser,
    parseArray_map parseChoice serializeChoice parseChoice_ser]

/-- C6 witness: the round-trip at a concrete completion value. -/
theorem validate_serialize_roundtrip_witness :
    validate (serialize
      ⟨"chatcmpl-1", "chat.completion", 1700000000, "gpt-3.5-turbo",
        [⟨0, ⟨"assistant", "Hi"⟩,
          ⟨[⟨"Hi", 0, [72, 105], [⟨"Hi", 0, none⟩, ⟨"Hello", -1, some [1]⟩]⟩]⟩,
          "stop"⟩],
        ⟨1, 1, 2⟩⟩) =
      .ok ⟨"chatcmpl-1", "chat.completion", 1700000000, "gpt-3.5-turbo",
        [⟨0, ⟨"assistant", "Hi"⟩,
          ⟨[⟨"Hi", 0, [72, 105], [⟨"Hi", 0, none⟩, ⟨"Hello", -1, some [1]⟩]⟩]⟩,
          "stop"⟩],
        ⟨1, 1, 2⟩⟩ :=
  validate_serialize_roundtrip _

/-- If the choices list is non-empty, `renderTokenColumns` succeeds and maps
`mkColumn` over the first choice's token list. -/
theorem renderTokenColumns_cons (c : ChatCompletion) (ch : Choice)
    (rest : List Choice) (h : c.choices = ch :: rest) :
    renderTokenColumns c = .ok (ch.logprobs.content.map mkColumn) := by
  unfold renderTokenColumns
  rw [h]

/-- A successful render comes from a non-empty choices list and is the map of
`mkColumn` over the first choice's token list. -/
theorem renderTokenColumns_ok (c : ChatCompletion) (cols : List TokenColumn)
    (h : renderTokenColumns c = .ok cols) :
    ∃ ch rest, c.choices = ch :: rest ∧ cols = ch.logprobs.content.map mkColumn := by
  unfold renderTokenColumns at h
  cases hc : c.choices with
  | nil => rw [hc] at h; cases h
  | cons ch rest =>
    rw [hc] at h
    exact ⟨ch, rest, rfl, by injection h with h2; exact h2.symm⟩

/-- A concrete emitted token used by the witnesses. -/
def contentHi : LogProbContent := ⟨"Hi", 0, [72, 105], [⟨"Hi", 0, none⟩]⟩

/-- A concrete choice used by the witnesses. -/
def choiceHi : Choice := ⟨0, ⟨"assistant", "Hi"⟩, ⟨[contentHi]⟩, "stop"⟩

/-- A concrete validated completion used by the witnesses. -/
def cHi : ChatCompletion :=
  ⟨"chatcmpl-1", "chat.completion", 1700000000, "gpt-3.5-turbo", [choiceHi], ⟨1, 1, 2⟩⟩

/-- The rendering of the one alternative of `contentHi`. -/
def altHi : AltDisplay := ⟨"Hi", 0, true⟩

/-- The rendered column of `contentHi`. -/
def colHi : TokenColumn := ⟨"Hi", [altHi]⟩

/-- C1.  For every alternative of every token column produced by `render`,
with log-probability at most zero, the percentage is `exp(logprob) * 100`,
its unrounded value lies in the half-open interval `(0, 100]` (log-probability
zero mapping to exactly `100`), and the displayed value is that percentage
rounded to three decimal places. -/
theorem render_probability_conversion (c : ChatCompletion) (cols : List TokenColumn)
    (hr : renderTokenColumns c = .ok cols) (col : TokenColumn) (hcol : col ∈ cols)
    (alt : AltDisplay) (halt : alt ∈ col.alternatives) (hlp : alt.logprob ≤ 0) :
    probabilityPercent alt = Real.exp ((alt.logprob : ℝ)) * 100 ∧
    probabilityPercent alt ∈ Set.Ioc (0 : ℝ) 100 ∧
    (alt.logprob = 0 → probabilityPercent alt = 100) ∧
    displayedPercent alt = round3 (probabilityPercent alt) := by
  have hexp : Real.exp ((alt.logprob : ℝ)) ≤ 1 := by
    rw [← Real.exp_zero]
    exact Real.exp_le_exp.mpr (by exact_mod_cast hlp)
  have hpos := Real.exp_pos ((alt.logprob : ℝ))
  refine ⟨rfl, Set.mem_Ioc.mpr ⟨?_, ?_⟩, ?_, rfl⟩
  · unfold probabilityPercent
    nlinarith
  · unfold probabilityPercent
    nlinarith
  · intro h0
    unfold probabilityPercent
    rw [h0]
    norm_num

/-- C1 witness: the probability-conversion facts at the concrete rendering
of `cHi`. -/
theorem render_probability_conversion_witness :
    probabilityPercent altHi = Real.exp ((altHi.logprob : ℝ)) * 100 ∧
    probabilityPercent altHi ∈ Set.Ioc (0 : ℝ) 100 ∧
    (altHi.logprob = 0 → probabilityPercent altHi = 100) ∧
    displayedPercent altHi = round3 (probabilityPercent altHi) :=
  render_probability_conversion cHi [colHi] rfl colHi (List.mem_singleton.mpr rfl)
    altHi (List.mem_singleton.mpr rfl) (le_refl 0)

/-- C2.  Every alternative entry of every rendered column is marked chosen
exactly when its token text equals the column's emitted token text. -/
theorem render_isChosen_iff (c : ChatCompletion) (cols : List TokenColumn)
    (hr : renderTokenColumns c = .ok cols) (col : TokenColumn) (hcol : col ∈ cols)
    (alt : AltDisplay) (halt : alt ∈ col.alternatives) :
    alt.isChosen = true ↔ alt.token = col.emittedToken := by
  obtain ⟨ch, rest, hc, rfl⟩ := renderTokenColumns_ok c cols hr
  obtain ⟨t, ht, rfl⟩ := List.mem_map.mp hcol
  simp only [mkColumn] at halt
  obtain ⟨a, ha, rfl⟩ := List.mem_map.mp halt
  simp [mkAltDisplay, mkColumn]

/-- C2 witness: the chosen-marking equivalence at the concrete rendering of
`cHi`. -/
theorem render_isChosen_iff_witness :
    altHi.isChosen = true ↔ altHi.token = colHi.emittedToken :=
  render_isChosen_iff cHi [colHi] rfl colHi (List.mem_singleton.mpr rfl)
    altHi (List.mem_singleton.mpr rfl)

/-- C8.  Rendering preserves order and counts: one column per emitted token
of the first choice, in the same order, headers equal to the token texts, and
within each column the alternatives in their original order, none filtered. -/
theorem render_order (c : ChatCompletion) (ch : Choice) (rest : List Choice)
    (hc : c.choices = ch :: rest) (cols : List TokenColumn)
    (hr : renderTokenColumns c = .ok cols) :
    cols.length = ch.logprobs.content.length ∧
    cols.map TokenColumn.emittedToken = ch.logprobs.content.map LogProbContent.token ∧
    cols.map (fun col => col.alternatives.length) =
      ch.logprobs.content.map (fun t => t.top_logprobs.length) ∧
    cols.map (fun col => col.alternatives.map AltDisplay.token) =
      ch.logprobs.content.map (fun t => t.top_logprobs.map TopLogProb.token) := by
  rw [renderTokenColumns_cons c ch rest hc] at hr
  injection hr with hr
  subst hr
  refine ⟨by simp, ?_, ?_, ?_⟩ <;>
    simp [List.map_map, mkColumn, mkAltDisplay, Function.comp]

/-- C8 witness: order and count preservation at the concrete completion
`cHi`. -/
theorem render_order_witness :
    ([colHi] : List TokenColumn).length = choiceHi.logprobs.content.length ∧
    ([colHi] : List TokenColumn).map TokenColumn.emittedToken =
      choiceHi.logprobs.content.map LogProbContent.token ∧
    ([colHi] : List TokenColumn).map (fun col => col.alternatives.length) =
      choiceHi.logprobs.content.map (fun t => t.top_logprobs.length) ∧
    ([colHi] : List TokenColumn).map (fun col => col.alternatives.map AltDisplay.token) =
      choiceHi.logprobs.content.map (fun t => t.top_logprobs.map TopLogProb.token) :=
  render_order cHi choiceHi [] rfl [colHi] rfl

/-- C9.  When validation of a fetched response body fails, the completion
state is left untouched: the previously stored completion, or the initial
null, is kept. -/
theorem fetchUpdate_keeps_state_on_error (prev : Option ChatCompletion)
    (data : Json) (es : List Issue) (h : validate data = .error es) :
    fetchUpdate prev data = prev := by
  unfold fetchUpdate
  rw [h]

/-- C9 witness: an invalid body (a bare JSON null) leaves both a stored
completion and the initial null state unchanged. -/
theorem fetchUpdate_keeps_state_on_error_witness :
    fetchUpdate (some cHi) Json.null = some cHi ∧
    fetchUpdate none Json.null = none :=
  ⟨fetchUpdate_keeps_state_on_error (some cHi) Json.null [⟨[], "object", "null"⟩] rfl,
   fetchUpdate_keeps_state_on_error none Json.null [⟨[], "object", "null"⟩] rfl⟩

/-- C10.  A validated completion whose first choice has an empty token list
renders successfully to an empty sequence of columns; this case is not a
precondition violation. -/
theorem render_empty_tokens (c : ChatCompletion) (ch : Choice) (rest : List Choice)
    (h1 : c.choices = ch :: rest) (h2 : ch.logprobs.content = []) :
    renderTokenColumns c = .ok [] := by
  rw [renderTokenColumns_cons c ch rest h1, h2]
  rfl

/-- A concrete choice with an empty token list. -/
def choiceNoTokens : Choice := ⟨0, ⟨"assistant", ""⟩, ⟨[]⟩, "stop"⟩

/-- A concrete completion whose first choice has an empty token list. -/
def cNoTokens : ChatCompletion :=
  ⟨"chatcmpl-2", "chat.completion", 1700000000, "gpt-3.5-turbo", [choiceNoTokens],
    ⟨1, 0, 1⟩⟩

/-- C10 witness: the empty-token-list completion renders to no columns. -/
theorem render_empty_tokens_witness : renderTokenColumns cNoTokens = .ok [] :=
  render_empty_tokens cNoTokens choiceNoTokens [] rfl rfl

/-- A schema-valid response body whose `choices` array is empty. -/
def emptyChoicesDoc : Json :=
  Json.obj [("id", .str "chatcmpl-3"), ("object", .str "chat.completion"),
    ("created", .num 1700000000), ("model", .str "gpt-3.5-turbo"),
    ("choices", .arr []),
    ("usage", .obj [("prompt_tokens", .num 1), ("completion_tokens", .num 0),
      ("total_tokens", .num 1)]),
    ("system_fingerprint", Json.null)]

/-- The typed completion with an empty choices list. -/
def emptyChoicesCompletion : ChatCompletion :=
  ⟨"chatcmpl-3", "chat.completion", 1700000000, "gpt-3.5-turbo", [], ⟨1, 0, 1⟩⟩

/-- C3.  The validator accepts an empty `choices` array as schema-valid, and
on the resulting completion the renderer does not signal the
RenderPrecondition error the spec requires: it reads `.logprobs` off the
absent `choices[0]` and fails with the JavaScript TypeError. -/
theorem render_empty_choices_type_error :
    validate emptyChoicesDoc = .ok emptyChoicesCompletion ∧
    renderTokenColumns emptyChoicesCompletion =
      .error RenderError.typeErrorUndefinedAccess ∧
    RenderError.typeErrorUndefinedAccess ≠ RenderError.renderPrecondition :=
  ⟨rfl, rfl, by decide⟩

/-- A response body in which `created` carries `cr`, the three usage fields
carry `pt`, `ct` and `tt`, and one `bytes` element carries `b`, all
arbitrary rational numbers, everything else schema-valid. -/
def docNonInt (cr pt ct tt b : ℚ) : Json :=
  Json.obj [("id", .str "chatcmpl-4"), ("object", .str "chat.completion"),
    ("created", .num cr), ("model", .str "gpt-3.5-turbo"),
    ("choices", .arr [Json.obj [("index", .num 0),
      ("message", .obj [("role", .str "assistant"), ("content", .str "Hi")]),
      ("logprobs", .obj [("content", .arr [Json.obj [("token", .str "Hi"),
        ("logprob", .num (-1)), ("bytes", .arr [.num b]),
        ("top_logprobs", .arr [])]])]),
      ("finish_reason", .str "stop")]]),
    ("usage", .obj [("prompt_tokens", .num pt), ("completion_tokens", .num ct),
      ("total_tokens", .num tt)]),
    ("system_fingerprint", Json.null)]

/-- The typed completion `docNonInt cr pt ct tt b` validates to. -/
def compNonInt (cr pt ct tt b : ℚ) : ChatCompletion :=
  ⟨"chatcmpl-4", "chat.completion", cr, "gpt-3.5-turbo",
    [⟨0, ⟨"assistant", "Hi"⟩, ⟨[⟨"Hi", -1, [b], []⟩]⟩, "stop"⟩], ⟨pt, ct, tt⟩⟩

/-- C4 counterexample: a body whose `created` field, all three usage fields
(`prompt_tokens`, `completion_tokens`, `total_tokens`) and a `bytes` element
are all the non-integer number 3/2 is accepted by the validator,
contradicting the claim that such bodies are rejected. -/
theorem validate_accepts_non_integer :
    validate (docNonInt (3 / 2) (3 / 2) (3 / 2) (3 / 2) (3 / 2)) =
      .ok (compNonInt (3 / 2) (3 / 2) (3 / 2) (3 / 2) (3 / 2)) ∧
    ((3 : ℚ) / 2).den ≠ 1 :=
  ⟨rfl, by norm_num⟩

/-- C4 amended: for `created`, each of the three usage fields
(`prompt_tokens`, `completion_tokens`, `total_tokens`) and the `bytes`
elements, the validator does not reject a number for failing to be an
integer: these fields are checked only for being numbers, and any rational
value in any of these positions, integer or not, is accepted. -/
theorem validate_number_fields_not_integer_checked (cr pt ct tt b : ℚ) :
    validate (docNonInt cr pt ct tt b) = .ok (compNonInt cr pt ct tt b) := rfl

/-- C4 witness: the amended acceptance at concrete non-integer numbers in
all five positions. -/
theorem validate_number_fields_not_integer_checked_witness :
    validate (docNonInt (5 / 4) (1 / 3) (7 / 2) (9 / 8) (255 / 2)) =
      .ok (compNonInt (5 / 4) (1 / 3) (7 / 2) (9 / 8) (255 / 2)) :=
  validate_number_fields_not_integer_checked (5 / 4) (1 / 3) (7 / 2) (9 / 8) (255 / 2)

/-- Unfolding of the validator on an object value: the seven fields of the
schema are parsed in declaration order and either all succeed or the issues
are concatenated in that order. -/
theorem validate_obj_spec (fs : List (String × Json)) :
    validate (Json.obj fs) =
      match parseString [PathElem.key "id"] (lookupField fs "id"),
          parseString [PathElem.key "object"] (lookupField fs "object"),
          parseNumber [PathElem.key "created"] (lookupField fs "created"),
          parseString [PathElem.key "model"] (lookupField fs "model"),
          parseArray parseChoice [PathElem.key "choices"] (lookupField fs "choices"),
          parseUsage [PathElem.key "usage"] (lookupField fs "usage"),
          parseNull [PathElem.key "system_fingerprint"]
            (lookupField fs "system_fingerprint") with
      | .ok i, .ok o, .ok cr, .ok m, .ok ch, .ok u, .ok _ => .ok ⟨i, o, cr, m, ch, u⟩
      | i, o, cr, m, ch, u, sf =>
        .error (errList i ++ errList o ++ errList cr ++ errList m ++ errList ch ++
          errList u ++ errList sf) := rfl

/-- Issues of the `id` field surface in the validator's issue list. -/
theorem mem_errList_validate_id (fs : List (String × Json)) (issue : Issue)
    (h : issue ∈ errList (parseString [PathElem.key "id"] (lookupField fs "id"))) :
    issue ∈ errList (validate (Json.obj fs)) := by
  rw [validate_obj_spec]
  split
  · rename_i i o cr m ch u sf h1 h2 h3 h4 h5 h6 h7
    rw [h1] at h
    simp [errList] at h
  · simp only [errList, List.mem_append]
    tauto

/-- Issues of the `object` field surface in the validator's issue list. -/
theorem mem_errList_validate_object (fs : List (String × Json)) (issue : Issue)
    (h : issue ∈ errList (parseString [PathElem.key "object"] (lookupField fs "object"))) :
    issue ∈ errList (validate (Json.obj fs)) := by
  rw [validate_obj_spec]
  split
  · rename_i i o cr m ch u sf h1 h2 h3 h4 h5 h6 h7
    rw [h2] at h
    simp [errList] at h
  · simp only [errList, List.mem_append]
    tauto

/-- Issues of the `created` field surface in the validator's issue list. -/
theorem mem_errList_validate_created (fs : List (String × Json)) (issue : Issue)
    (h : issue ∈ errList (parseNumber [PathElem.key "created"] (lookupField fs "created"))) :
    issue ∈ errList (validate (Json.obj fs)) := by
  rw [validate_obj_spec]
  split
  · rename_i i o cr m ch u sf h1 h2 h3 h4 h5 h6 h7
    rw [h3] at h
    simp [errList] at h
  · simp only [errList, List.mem_append]
    tauto

/-- Issues of the `model` field surface in the validator's issue list. -/
theorem mem_errList_validate_model (fs : List (String × Json)) (issue : Issue)
    (h : issue ∈ errList (parseString [PathElem.key "model"] (lookupField fs "model"))) :
    issue ∈ errList (validate (Json.obj fs)) := by
  rw [validate_obj_spec]
  split
  · rename_i i o cr m ch u sf h1 h2 h3 h4 h5 h6 h7
    rw [h4] at h
    simp [errList] at h
  · simp only [errList, List.mem_append]
    tauto

/-- Issues of the `choices` field surface in the validator's issue list. -/
theorem mem_errList_validate_choices (fs : List (String × Json)) (issue : Issue)
    (h : issue ∈
      errList (parseArray parseChoice [PathElem.key "choices"] (lookupField fs "choices"))) :
    issue ∈ errList (validate (Json.obj fs)) := by
  rw [validate_obj_spec]
  split
  · rename_i i o cr m ch u sf h1 h2 h3 h4 h5 h6 h7
    rw [h5] at h
    simp [errList] at h
  · simp only [errList, List.mem_append]
    tauto

/-- Issues of the `usage` field surface in the validator's issue list. -/
theorem mem_errList_validate_usage (fs : List (String × Json)) (issue : Issue)
    (h : issue ∈ errList (parseUsage [PathElem.key "usage"] (lookupField fs "usage"))) :
    issue ∈ errList (validate (Json.obj fs)) := by
  rw [validate_obj_spec]
  split
  · rename_i i o cr m ch u sf h1 h2 h3 h4 h5 h6 h7
    rw [h6] at h
    simp [errList] at h
  · simp only [errList, List.mem_append]
    tauto

/-- Issues of the `system_fingerprint` field surface in the validator's
issue list. -/
theorem mem_errList_validate_fingerprint (fs : List (String × Json)) (issue : Issue)
    (h : issue ∈ errList (parseNull [PathElem.key "system_fingerprint"]
      (lookupField fs "system_fingerprint"))) :
    issue ∈ errList (validate (Json.obj fs)) := by
  rw [validate_obj_spec]
  split
  · rename_i i o cr m ch u sf h1 h2 h3 h4 h5 h6 h7
    rw [h7] at h
    simp [errList] at h
  · simp only [errList, List.mem_append]
    tauto

/-- Validation of `j` fails and the issue list contains `issue`. -/
def failsWith (j : Json) (issue : Issue) : Prop :=
  ∃ es, validate j = .error es ∧ issue ∈ es

/-- Membership in the issue list of a failed validation, from membership in
`errList`. -/
theorem failsWith_of_mem_errList (j : Json) (issue : Issue)
    (h : issue ∈ errList (validate j)) : failsWith j issue := by
  cases hv : validate j with
  | ok c => rw [hv] at h; simp [errList] at h
  | error es => exact ⟨es, hv, by rw [hv] at h; exact h⟩

/-- Running `z.null()` on anything other than a literal null produces the
invalid_type issue naming the expected null and the received shape. -/
theorem parseNull_err (path : List PathElem) (v : Option Json)
    (h : v ≠ some Json.null) :
    parseNull path v = .error [⟨path, "null", jsTypeName v⟩] := by
  cases v with
  | none => rfl
  | some j => cases j <;> first | rfl | exact absurd rfl h

/-- The shape the schema expects for each top-level field. -/
def expectedTopLevel : String → String
  | "created" => "number"
  | "choices" => "array"
  | "usage" => "object"
  | "system_fingerprint" => "null"
  | _ => "string"

/-- Unfolding of the usage parser on an object value. -/
theorem parseUsage_obj_spec (path : List PathElem) (ufs : List (String × Json)) :
    parseUsage path (some (Json.obj ufs)) =
      match parseNumber (path ++ [PathElem.key "prompt_tokens"])
            (lookupField ufs "prompt_tokens"),
          parseNumber (path ++ [PathElem.key "completion_tokens"])
            (lookupField ufs "completion_tokens"),
          parseNumber (path ++ [PathElem.key "total_tokens"])
            (lookupField ufs "total_tokens") with
      | .ok p, .ok c, .ok t => .ok ⟨p, c, t⟩
      | p, c, t => .error (errList p ++ errList c ++ errList t) := rfl

/-- A missing `total_tokens` key inside the usage object surfaces as an
issue of the usage parser. -/
theorem mem_errList_parseUsage_total (path : List PathElem)
    (ufs : List (String × Json)) (h : lookupField ufs "total_tokens" = none) :
    Issue.mk (path ++ [PathElem.key "total_tokens"]) "number" "undefined" ∈
      errList (parseUsage path (some (Json.obj ufs))) := by
  rw [parseUsage_obj_spec, h]
  cases hp : parseNumber (path ++ [PathElem.key "prompt_tokens"])
      (lookupField ufs "prompt_tokens") <;>
    cases hc : parseNumber (path ++ [PathElem.key "completion_tokens"])
        (lookupField ufs "completion_tokens") <;>
      simp [errList, parseNumber, jsTypeName]

/-- C5.  Validation succeeds only when the input is a JSON object whose
`system_fingerprint` field is present and exactly null; any other value for
the field, a missing field included, makes validation fail. -/
theorem validate_ok_fingerprint_null (j : Json) (c : ChatCompletion)
    (h : validate j = .ok c) :
    ∃ fs, j = Json.obj fs ∧ lookupField fs "system_fingerprint" = some Json.null := by
  cases j with
  | null => exact Except.noConfusion h
  | bool b => exact Except.noConfusion h
  | num q => exact Except.noConfusion h
  | str s => exact Except.noConfusion h
  | arr xs => exact Except.noConfusion h
  | obj fs =>
    refine ⟨fs, rfl, ?_⟩
    rw [validate_obj_spec] at h
    split at h
    · rename_i i o cr m ch u sf h1 h2 h3 h4 h5 h6 h7
      cases hl : lookupField fs "system_fingerprint" with
      | none => rw [hl] at h7; exact Except.noConfusion h7
      | some v =>
        cases v with
        | null => rfl
        | bool b => rw [hl] at h7; exact Except.noConfusion h7
        | num q => rw [hl] at h7; exact Except.noConfusion h7
        | str s => rw [hl] at h7; exact Except.noConfusion h7
        | arr xs => rw [hl] at h7; exact Except.noConfusion h7
        | obj fs2 => rw [hl] at h7; exact Except.noConfusion h7
    · exact Except.noConfusion h

/-- C5 witness: a successfully validating body indeed carries a null
`system_fingerprint` field. -/
theorem validate_ok_fingerprint_null_witness :
    ∃ fs, serialize cHi = Json.obj fs ∧
      lookupField fs "system_fingerprint" = some Json.null :=
  validate_ok_fingerprint_null (serialize cHi) cHi rfl

/-- C7.  A missing required field, at top level or the nested
`usage.total_tokens`, and a non-null `system_fingerprint` each make
validation fail with an issue naming the offending field path and the
expected versus received shape. -/
theorem validate_missing_field_violations :
    (∀ (fs : List (String × Json)) (k : String),
      k ∈ ["id", "object", "created", "model", "choices", "usage",
        "system_fingerprint"] →
      lookupField fs k = none →
      failsWith (Json.obj fs) ⟨[PathElem.key k], expectedTopLevel k, "undefined"⟩) ∧
    (∀ fs ufs : List (String × Json),
      lookupField fs "usage" = some (Json.obj ufs) →
      lookupField ufs "total_tokens" = none →
      failsWith (Json.obj fs)
        ⟨[PathElem.key "usage", PathElem.key "total_tokens"], "number", "undefined"⟩) ∧
    (∀ fs : List (String × Json),
      lookupField fs "system_fingerprint" ≠ some Json.null →
      failsWith (Json.obj fs)
        ⟨[PathElem.key "system_fingerprint"], "null",
          jsTypeName (lookupField fs "system_fingerprint")⟩) := by
  refine ⟨?_, ?_, ?_⟩
  · intro fs k hk hnone
    apply failsWith_of_mem_errList
    simp only [List.mem_cons, List.not_mem_nil, or_false] at hk
    rcases hk with rfl | rfl | rfl | rfl | rfl | rfl | rfl
    · exact mem_errList_validate_id fs _ (by rw [hnone]; exact List.mem_singleton.mpr rfl)
    · exact mem_errList_validate_object fs _
        (by rw [hnone]; exact List.mem_singleton.mpr rfl)
    · exact mem_errList_validate_created fs _
        (by rw [hnone]; exact List.mem_singleton.mpr rfl)
    · exact mem_errList_validate_model fs _
        (by rw [hnone]; exact List.mem_singleton.mpr rfl)
    · exact mem_errList_validate_choices fs _
        (by rw [hnone]; exact List.mem_singleton.mpr rfl)
    · exact mem_errList_validate_usage fs _
        (by rw [hnone]; exact List.mem_singleton.mpr rfl)
    · exact mem_errList_validate_fingerprint fs _
        (by rw [hnone]; exact List.mem_singleton.mpr rfl)
  · intro fs ufs hu ht
    apply failsWith_of_mem_errList
    apply mem_errList_validate_usage
    rw [hu]
    exact mem_errList_parseUsage_total [PathElem.key "usage"] ufs ht
  · intro fs hne
    apply failsWith_of_mem_errList
    apply mem_errList_validate_fingerprint
    rw [parseNull_err _ _ hne]
    exact List.mem_singleton.mpr rfl

/-- C7 witness: the three failure modes at concrete bodies, an empty object,
an object whose usage lacks `total_tokens`, and a string fingerprint. -/
theorem validate_missing_field_violations_witness :
    failsWith (Json.obj []) ⟨[PathElem.key "id"], expectedTopLevel "id", "undefined"⟩ ∧
    failsWith (Json.obj [("usage", Json.obj [])])
      ⟨[PathElem.key "usage", PathElem.key "total_tokens"], "number", "undefined"⟩ ∧
    failsWith (Json.obj [("system_fingerprint", Json.str "fp")])
      ⟨[PathElem.key "system_fingerprint"], "null",
        jsTypeName (lookupField [("system_fingerprint", Json.str "fp")]
          "system_fingerprint")⟩ :=
  ⟨validate_missing_field_violations.1 [] "id" (by simp) rfl,
   validate_missing_field_violations.2.1 [("usage", Json.obj [])] [] rfl rfl,
   validate_missing_field_violations.2.2 [("system_fingerprint", Json.str "fp")]
     (fun hx => Json.noConfusion (Option.some.inj hx))⟩
